import Mathlib

/-!
Shallow embedding of a Rust window renderer that prefers a Vulkan backend
(delegated to the skulpin library) and falls back to an OpenGL backend.
External collaborators (the windowing library, the GL driver, the delegated
Vulkan renderer) are modelled as explicit environment values passed to the
operations; machine-integer conversions are modelled on Nat and Int with
explicit range checks; a Rust panic is modelled as the value none; observable
side effects (stderr diagnostics, redraw requests, buffer swaps, paint
callback invocations) are collected in an event list.
-/

namespace SkiaVulkanGl

/-- Physical size in device pixels, fields are u32 values. -/
structure PhysicalSize where
  width : Nat
  height : Nat
deriving DecidableEq, Repr

/-- Logical (DPI independent) size, fields are u32 values. -/
structure LogicalSize where
  width : Nat
  height : Nat
deriving DecidableEq, Repr

/-- Host window as reported by the windowing library: inner size in physical
pixels and the DPI scale factor. The f64 scale factor is modelled as a
rational number. -/
structure Window where
  inner_size : PhysicalSize
  scale_factor : ℚ
deriving DecidableEq, Repr

/-- Pixel format reported by the GL context: multisampling is an optional u16
sample count, stencil_bits a u8. -/
structure PixelFormat where
  multisampling : Option Nat
  stencil_bits : Nat
deriving DecidableEq, Repr

/-- The glutin windowed GL context: it owns the window and reports a pixel
format. The context_size field records the GL surface size set by the resize
call on the context. -/
structure WindowedContext where
  window : Window
  pixel_format : PixelFormat
  context_size : PhysicalSize
deriving DecidableEq, Repr

/-- Largest i32 value, the bound for the u32 to i32 conversions of width and
height performed at the GPU API boundary. -/
def i32Max : Nat := 2147483647

/-- A u32 value converted to i32 by TryInto; the source unwraps the result, so
none models a panic. -/
def u32ToI32 (n : Nat) : Option Int :=
  if n ≤ i32Max then some (n : Int) else none

/-- An i32 value (GLint) converted to u32 by TryInto; the source unwraps the
result, so none models a panic. -/
def i32ToU32 (i : Int) : Option Nat :=
  if 0 ≤ i then some i.toNat else none

/-- The GL enum value of the RGBA8 format constant passed for the framebuffer
format. -/
def Format.RGBA8 : Nat := 32856

/-- Framebuffer info captured once at GL construction: the bound framebuffer
object id (u32) and the pixel format enum value. -/
structure FramebufferInfo where
  fboid : Nat
  format : Nat
deriving DecidableEq, Repr

/-- Description of the destination framebuffer handed to the drawing library:
dimensions are i32, sample count and stencil bits are usize values (the u16
and u8 conversions into usize cannot fail, so they are modelled as the
identity). -/
structure BackendRenderTarget where
  width : Int
  height : Int
  sample_count : Option Nat
  stencil_bits : Nat
  fb_info : FramebufferInfo
deriving DecidableEq, Repr

/-- Constructor mirroring BackendRenderTarget new_gl. -/
def BackendRenderTarget.new_gl (dims : Int × Int) (sample_count : Option Nat)
    (stencil_bits : Nat) (fb_info : FramebufferInfo) : BackendRenderTarget :=
  { width := dims.1, height := dims.2, sample_count, stencil_bits, fb_info }

/-- Canvas state visible to this layer: the accumulated scale transform. A
fresh canvas carries the identity transform. The f64 to f32 cast of the scale
factor is modelled as the identity on rationals. -/
structure Canvas where
  scale_x : ℚ
  scale_y : ℚ
deriving DecidableEq, Repr

/-- The identity transform of a freshly created canvas. -/
def Canvas.fresh : Canvas := { scale_x := 1, scale_y := 1 }

/-- The canvas scale call: multiplies the current transform. -/
def Canvas.scale (c : Canvas) (s : ℚ × ℚ) : Canvas :=
  { scale_x := c.scale_x * s.1, scale_y := c.scale_y * s.2 }

/-- The GPU context handle; only its identity matters to this layer, so it is
modelled as a token. -/
structure GrContext where
  id : Nat
deriving DecidableEq, Repr

/-- Surface origin argument of the surface constructor. -/
inductive SurfaceOrigin
  | BottomLeft
  | TopLeft
deriving DecidableEq, Repr

/-- Color type argument of the surface constructor. -/
inductive ColorType
  | RGBA8888
deriving DecidableEq, Repr

/-- The drawing surface exposed to paint callbacks: derived from the GPU
context and the backend render target, carrying a canvas. -/
structure Surface where
  gr_context : GrContext
  render_target : BackendRenderTarget
  origin : SurfaceOrigin
  color_type : ColorType
  canvas : Canvas
deriving DecidableEq, Repr

/-- Constructor mirroring Surface from_backend_render_target: the new surface
records the context and render target it was built from and starts with a
fresh canvas. -/
def Surface.from_backend_render_target (ctx : GrContext) (brt : BackendRenderTarget)
    (origin : SurfaceOrigin) (color_type : ColorType) : Surface :=
  { gr_context := ctx, render_target := brt, origin, color_type,
    canvas := Canvas.fresh }

/-- Structured construction error of the delegated Vulkan renderer library. -/
structure CreateRendererError where
  code : Nat
deriving DecidableEq, Repr

/-- A Vulkan result code from the ash bindings. -/
structure VkResult where
  code : Int
deriving DecidableEq, Repr

/-- A GL context error from glutin, as returned by the buffer swap. -/
structure ContextError where
  code : Nat
deriving DecidableEq, Repr

/-- Observable side effects of the operations: a stderr diagnostic carrying
the Vulkan construction error, a redraw request to the window, a completed
buffer swap, and an invocation of the caller supplied paint callback. -/
inductive Event
  | diagnostic (e : CreateRendererError)
  | redraw_requested
  | buffers_swapped
  | callback_invoked
deriving DecidableEq, Repr

/-- True on the callback invocation event. -/
def Event.isCallback : Event → Bool
  | .callback_invoked => true
  | _ => false

/-- True on the diagnostic event. -/
def Event.isDiagnostic : Event → Bool
  | .diagnostic _ => true
  | _ => false

/-- Number of callback invocations recorded in an event list. -/
def callbackCount (evs : List Event) : Nat :=
  (evs.filter Event.isCallback).length

/-- Number of diagnostics recorded in an event list. -/
def diagnosticCount (evs : List Event) : Nat :=
  (evs.filter Event.isDiagnostic).length

/-- The GL renderer state, mirroring the Rust struct field for field. -/
structure GlRenderer where
  windowed_context : WindowedContext
  gr_context : GrContext
  fb_info : FramebufferInfo
  backend_render_target : BackendRenderTarget
  surface : Surface
deriving DecidableEq, Repr

/-- External inputs consumed by GL construction: the windowed context built
by glutin (window, pixel format) and the currently bound framebuffer object
id returned by the GL driver as a GLint. The fresh GPU context created by the
drawing library is identified by the token ctx_id. -/
structure GlEnv where
  windowed_context : WindowedContext
  fboid : Int
  ctx_id : Nat
deriving DecidableEq, Repr

/-- GL construction. The window and context builders, making the context
current, symbol loading and GPU context creation are external calls whose
success is part of the environment; the fallible steps modelled here are the
numeric conversions the source unwraps: the GLint framebuffer id into u32 and
the u32 width and height into i32. The result none models a panic. After
building the surface, the window scale factor is applied as a canvas scale
transform. -/
def GlRenderer.new (env : GlEnv) : Option GlRenderer :=
  let windowed_context := env.windowed_context
  let pixel_format := windowed_context.pixel_format
  match i32ToU32 env.fboid with
  | none => none
  | some fboid =>
    let fb_info : FramebufferInfo := { fboid, format := Format.RGBA8 }
    let size := windowed_context.window.inner_size
    match u32ToI32 size.width, u32ToI32 size.height with
    | some w, some ht =>
      let backend_render_target := BackendRenderTarget.new_gl (w, ht)
        pixel_format.multisampling pixel_format.stencil_bits fb_info
      let surface := Surface.from_backend_render_target
        { id := env.ctx_id } backend_render_target
        SurfaceOrigin.BottomLeft ColorType.RGBA8888
      let sf := windowed_context.window.scale_factor
      let surface := { surface with canvas := surface.canvas.scale (sf, sf) }
      some { windowed_context, gr_context := { id := env.ctx_id }, fb_info,
             backend_render_target, surface }
    | _, _ => none

/-- GL resize: resizes the GL context surface, re-queries the pixel format,
rebuilds the backend render target at the new size reusing the stored
framebuffer info, rebuilds the drawing surface from the stored GPU context,
and requests a redraw. The width and height conversions into i32 are
unwrapped by the source, so none models a panic. No scale transform is
applied to the rebuilt surface. -/
def GlRenderer.resize (r : GlRenderer) (size : PhysicalSize) :
    Option (GlRenderer × List Event) :=
  let windowed_context := { r.windowed_context with context_size := size }
  let pixel_format := windowed_context.pixel_format
  match u32ToI32 size.width, u32ToI32 size.height with
  | some w, some ht =>
    let backend_render_target := BackendRenderTarget.new_gl (w, ht)
      pixel_format.multisampling pixel_format.stencil_bits r.fb_info
    let surface := Surface.from_backend_render_target
      r.gr_context backend_render_target
      SurfaceOrigin.BottomLeft ColorType.RGBA8888
    some ({ r with windowed_context, backend_render_target, surface },
          [Event.redraw_requested])
  | _, _ => none

/-- GL paint: borrows the surface, hands its canvas to the callback, flushes,
then swaps buffers. The swap outcome is an environment value: none means the
swap succeeded. The callback is invoked unconditionally before the swap. -/
def GlRenderer.paint (r : GlRenderer) (swap_result : Option ContextError)
    (f : Canvas → Canvas) : Except ContextError Unit × GlRenderer × List Event :=
  let canvas := f r.surface.canvas
  let r2 := { r with surface := { r.surface with canvas } }
  match swap_result with
  | none => (Except.ok (), r2, [Event.callback_invoked, Event.buffers_swapped])
  | some e => (Except.error e, r2, [Event.callback_invoked])

/-- GL redraw request: forwarded to the window. -/
def GlRenderer.request_repaint (r : GlRenderer) : GlRenderer × List Event :=
  (r, [Event.redraw_requested])

/-- GL scale factor: queried from the window each call. -/
def GlRenderer.scale_factor (r : GlRenderer) : ℚ :=
  r.windowed_context.window.scale_factor

/-- The Vulkan backed renderer state: the winit window; the inner delegated
skulpin renderer is opaque external state and is not modelled. -/
structure SkulpinRenderer where
  winit_window : Window
deriving DecidableEq, Repr

/-- External inputs consumed by Vulkan construction: the winit window built
for skulpin and the outcome of the delegated renderer builder. -/
structure VkEnv where
  winit_window : Window
  build_result : Except CreateRendererError Unit
deriving Repr

/-- Vulkan construction: builds the window, wraps it for skulpin, and builds
the delegated renderer, propagating its error to the caller. -/
def SkulpinRenderer.new (env : VkEnv) : Except CreateRendererError SkulpinRenderer :=
  match env.build_result with
  | .error e => .error e
  | .ok _ => .ok { winit_window := env.winit_window }

/-- Modelled from the spec: the delegated skulpin draw call is external
library code absent from this repository. Per the spec it internally manages
frame acquisition, synchronization and presentation: when acquisition fails
it returns the error without invoking the closure; otherwise it invokes the
closure exactly once with the canvas and then presents, surfacing a
presentation error if presenting fails. -/
inductive DrawOutcome
  | acquire_failed (e : VkResult)
  | drawn
  | present_failed (e : VkResult)
deriving DecidableEq, Repr

/-- Vulkan paint: delegates to the skulpin draw call, whose outcome is an
environment value interpreted per the spec (see DrawOutcome). -/
def SkulpinRenderer.paint (r : SkulpinRenderer) (outcome : DrawOutcome)
    (f : Canvas → Canvas) : Except VkResult Unit × SkulpinRenderer × List Event :=
  match outcome with
  | .acquire_failed e => (Except.error e, r, [])
  | .drawn =>
    let _ := f Canvas.fresh
    (Except.ok (), r, [Event.callback_invoked])
  | .present_failed e =>
    let _ := f Canvas.fresh
    (Except.error e, r, [Event.callback_invoked])

/-- Vulkan redraw request: forwarded to the winit window. -/
def SkulpinRenderer.request_repaint (r : SkulpinRenderer) : SkulpinRenderer × List Event :=
  (r, [Event.redraw_requested])

/-- Vulkan scale factor: queried from the winit window each call. -/
def SkulpinRenderer.scale_factor (r : SkulpinRenderer) : ℚ :=
  r.winit_window.scale_factor

/-- The renderer: a tagged union of the Vulkan backed and GL backed variants. -/
inductive WindowRenderer
  | Skulpin (r : SkulpinRenderer)
  | Gl (r : GlRenderer)
deriving DecidableEq, Repr

/-- Backend tagged paint error returned to the caller. -/
inductive PaintError
  | Skulpin (e : VkResult)
  | Gl (e : ContextError)
deriving DecidableEq, Repr

/-- Environment for one construction: the inputs of the Vulkan attempt and of
the GL fallback. -/
structure ConstructEnv where
  vk : VkEnv
  gl : GlEnv
deriving Repr

/-- Renderer selection: attempt Vulkan construction first; on any error print
one diagnostic carrying that error to stderr and construct the GL renderer
instead. The Vulkan error never reaches the caller; a GL construction panic
is modelled as the value none, after the diagnostic was already emitted. -/
def WindowRenderer.new (env : ConstructEnv) : Option WindowRenderer × List Event :=
  match SkulpinRenderer.new env.vk with
  | .ok r => (some (.Skulpin r), [])
  | .error e =>
    match GlRenderer.new env.gl with
    | some g => (some (.Gl g), [Event.diagnostic e])
    | none => (none, [Event.diagnostic e])

/-- Resize dispatch: nothing for the Vulkan variant, delegated for GL. -/
def WindowRenderer.resize (r : WindowRenderer) (size : PhysicalSize) :
    Option (WindowRenderer × List Event) :=
  match r with
  | .Skulpin s => some (.Skulpin s, [])
  | .Gl g =>
    match g.resize size with
    | some (g2, evs) => some (.Gl g2, evs)
    | none => none

/-- Per paint environment: the skulpin draw outcome for the Vulkan variant
and the buffer swap outcome for the GL variant. -/
structure PaintOracle where
  vk : DrawOutcome
  gl_swap : Option ContextError
deriving DecidableEq, Repr

/-- Paint dispatch: delegates to the chosen variant and tags its error with
the backend that produced it. -/
def WindowRenderer.paint (r : WindowRenderer) (o : PaintOracle)
    (f : Canvas → Canvas) : Except PaintError Unit × WindowRenderer × List Event :=
  match r with
  | .Skulpin s =>
    match s.paint o.vk f with
    | (Except.ok _, s2, evs) => (Except.ok (), .Skulpin s2, evs)
    | (Except.error e, s2, evs) => (Except.error (PaintError.Skulpin e), .Skulpin s2, evs)
  | .Gl g =>
    match g.paint o.gl_swap f with
    | (Except.ok _, g2, evs) => (Except.ok (), .Gl g2, evs)
    | (Except.error e, g2, evs) => (Except.error (PaintError.Gl e), .Gl g2, evs)

/-- Redraw request dispatch. -/
def WindowRenderer.request_repaint (r : WindowRenderer) : WindowRenderer × List Event :=
  match r with
  | .Skulpin s =>
    let (s2, evs) := s.request_repaint
    (.Skulpin s2, evs)
  | .Gl g =>
    let (g2, evs) := g.request_repaint
    (.Gl g2, evs)

/-- Scale factor dispatch. -/
def WindowRenderer.scale_factor (r : WindowRenderer) : ℚ :=
  match r with
  | .Skulpin s => s.scale_factor
  | .Gl g => g.scale_factor

/-- The host window underlying either variant. -/
def WindowRenderer.window : WindowRenderer → Window
  | .Skulpin s => s.winit_window
  | .Gl g => g.windowed_context.window

/-- True when the renderer is the GL variant. -/
def WindowRenderer.isGl : WindowRenderer → Bool
  | .Skulpin _ => false
  | .Gl _ => true

/-- Whether this paint call fails at surface acquisition: only the delegated
Vulkan draw can fail acquisition; the GL paint borrows its own surface, which
cannot fail in single threaded use. -/
def acquisitionFails (r : WindowRenderer) (o : PaintOracle) : Bool :=
  match r, o.vk with
  | .Skulpin _, .acquire_failed _ => true
  | _, _ => false

/-- Concrete fixture: an 800 by 600 window at scale factor 2. -/
def sampleWindow : Window :=
  { inner_size := { width := 800, height := 600 }, scale_factor := 2 }

/-- Concrete fixture: the GL windowed context of the sample window, with 4x
multisampling and an 8 bit stencil. -/
def sampleContext : WindowedContext :=
  { window := sampleWindow,
    pixel_format := { multisampling := some 4, stencil_bits := 8 },
    context_size := { width := 800, height := 600 } }

/-- Concrete fixture: GL construction environment with framebuffer id 0 and
GPU context token 7. -/
def sampleGlEnv : GlEnv :=
  { windowed_context := sampleContext, fboid := 0, ctx_id := 7 }

/-- Concrete fixture: a Vulkan construction environment whose delegated
builder fails with error code 3. -/
def sampleVkFail : VkEnv :=
  { winit_window := sampleWindow, build_result := .error { code := 3 } }

/-- Concrete fixture: the framebuffer info captured by sample GL
construction. -/
def sampleFbInfo : FramebufferInfo :=
  { fboid := 0, format := Format.RGBA8 }

/-- Concrete fixture: the GL renderer produced by construction from
sampleGlEnv. -/
def sampleGl : GlRenderer :=
  { windowed_context := sampleContext
    gr_context := { id := 7 }
    fb_info := sampleFbInfo
    backend_render_target :=
      { width := 800, height := 600, sample_count := some 4, stencil_bits := 8,
        fb_info := sampleFbInfo }
    surface :=
      { gr_context := { id := 7 },
        render_target :=
          { width := 800, height := 600, sample_count := some 4,
            stencil_bits := 8, fb_info := sampleFbInfo },
        origin := .BottomLeft, color_type := .RGBA8888,
        canvas := Canvas.fresh.scale (2, 2) } }

/-- Concrete fixture: the GL renderer after resizing sampleGl to 400 by
300. -/
def sampleGlResized : GlRenderer :=
  { windowed_context :=
      { sampleContext with context_size := { width := 400, height := 300 } }
    gr_context := { id := 7 }
    fb_info := sampleFbInfo
    backend_render_target :=
      { width := 400, height := 300, sample_count := some 4, stencil_bits := 8,
        fb_info := sampleFbInfo }
    surface :=
      { gr_context := { id := 7 },
        render_target :=
          { width := 400, height := 300, sample_count := some 4,
            stencil_bits := 8, fb_info := sampleFbInfo },
        origin := .BottomLeft, color_type := .RGBA8888,
        canvas := Canvas.fresh } }

/-- Concrete fixture: the sample renderer wrapped as the GL variant. -/
def sampleWR : WindowRenderer := WindowRenderer.Gl sampleGl

/-- Concrete fixture: a paint environment where the delegated draw succeeds
and the buffer swap succeeds. -/
def samplePaintOracle : PaintOracle :=
  { vk := DrawOutcome.drawn, gl_swap := none }

/-- A successful u32 to i32 conversion returns the value unchanged and
implies the value is in range. -/
theorem u32ToI32_eq_some {n : Nat} {i : Int} (h : u32ToI32 n = some i) :
    i = (n : Int) ∧ n ≤ i32Max := by
  unfold u32ToI32 at h
  split at h
  next hle =>
    injection h with h
    exact ⟨h.symm, hle⟩
  next => cases h

/-- In range u32 values convert to i32 successfully. -/
theorem u32ToI32_of_le {n : Nat} (h : n ≤ i32Max) : u32ToI32 n = some (n : Int) := by
  unfold u32ToI32
  rw [if_pos h]

/-- Out of range u32 values fail to convert to i32. -/
theorem u32ToI32_of_gt {n : Nat} (h : i32Max < n) : u32ToI32 n = none := by
  unfold u32ToI32
  rw [if_neg (not_le.mpr h)]

/-- A successful i32 to u32 conversion returns the value unchanged and
implies the value is nonnegative. -/
theorem i32ToU32_eq_some {i : Int} {n : Nat} (h : i32ToU32 i = some n) :
    n = i.toNat ∧ 0 ≤ i := by
  unfold i32ToU32 at h
  split at h
  next hle =>
    injection h with h
    exact ⟨h.symm, hle⟩
  next => cases h

/-- Nonnegative i32 values convert to u32 successfully. -/
theorem i32ToU32_of_nonneg {i : Int} (h : 0 ≤ i) : i32ToU32 i = some i.toNat := by
  unfold i32ToU32
  rw [if_pos h]

/-- Negative i32 values fail to convert to u32. -/
theorem i32ToU32_of_neg {i : Int} (h : i < 0) : i32ToU32 i = none := by
  unfold i32ToU32
  rw [if_neg (not_le.mpr h)]

/-- Shape of a successful GL resize: the conversions were in range, the new
state updates exactly the context size, backend render target and surface,
and one redraw request is emitted. -/
theorem resize_success_shape {r r2 : GlRenderer} {size : PhysicalSize}
    {evs : List Event} (h : GlRenderer.resize r size = some (r2, evs)) :
    size.width ≤ i32Max ∧ size.height ≤ i32Max ∧
    r2 = { r with
      windowed_context := { r.windowed_context with context_size := size },
      backend_render_target := BackendRenderTarget.new_gl
        ((size.width : Int), (size.height : Int))
        r.windowed_context.pixel_format.multisampling
        r.windowed_context.pixel_format.stencil_bits r.fb_info,
      surface := Surface.from_backend_render_target r.gr_context
        (BackendRenderTarget.new_gl ((size.width : Int), (size.height : Int))
          r.windowed_context.pixel_format.multisampling
          r.windowed_context.pixel_format.stencil_bits r.fb_info)
        SurfaceOrigin.BottomLeft ColorType.RGBA8888 } ∧
    evs = [Event.redraw_requested] := by
  cases hw : u32ToI32 size.width with
  | none =>
    unfold GlRenderer.resize at h
    rw [hw] at h
    simp at h
  | some w =>
    cases hht : u32ToI32 size.height with
    | none =>
      unfold GlRenderer.resize at h
      rw [hw, hht] at h
      simp at h
    | some ht =>
      obtain ⟨rfl, hwle⟩ := u32ToI32_eq_some hw
      obtain ⟨rfl, hhle⟩ := u32ToI32_eq_some hht
      unfold GlRenderer.resize at h
      rw [hw, hht] at h
      simp only [Option.some.injEq, Prod.mk.injEq] at h
      obtain ⟨h1, h2⟩ := h
      exact ⟨hwle, hhle, h1.symm, h2.symm⟩

/-- Shape of a successful GL construction: the conversions were in range and
the resulting state is the one built from the environment, with the scale
transform applied to the fresh canvas. -/
theorem new_success_shape {env : GlEnv} {r : GlRenderer}
    (h : GlRenderer.new env = some r) :
    0 ≤ env.fboid ∧
    env.windowed_context.window.inner_size.width ≤ i32Max ∧
    env.windowed_context.window.inner_size.height ≤ i32Max ∧
    r = { windowed_context := env.windowed_context,
          gr_context := { id := env.ctx_id },
          fb_info := { fboid := env.fboid.toNat, format := Format.RGBA8 },
          backend_render_target := BackendRenderTarget.new_gl
            ((env.windowed_context.window.inner_size.width : Int),
             (env.windowed_context.window.inner_size.height : Int))
            env.windowed_context.pixel_format.multisampling
            env.windowed_context.pixel_format.stencil_bits
            { fboid := env.fboid.toNat, format := Format.RGBA8 },
          surface :=
            { gr_context := { id := env.ctx_id },
              render_target := BackendRenderTarget.new_gl
                ((env.windowed_context.window.inner_size.width : Int),
                 (env.windowed_context.window.inner_size.height : Int))
                env.windowed_context.pixel_format.multisampling
                env.windowed_context.pixel_format.stencil_bits
                { fboid := env.fboid.toNat, format := Format.RGBA8 },
              origin := SurfaceOrigin.BottomLeft,
              color_type := ColorType.RGBA8888,
              canvas := Canvas.fresh.scale
                (env.windowed_context.window.scale_factor,
                 env.windowed_context.window.scale_factor) } } := by
  cases hfb : i32ToU32 env.fboid with
  | none =>
    unfold GlRenderer.new at h
    rw [hfb] at h
    simp at h
  | some fb =>
    cases hw : u32ToI32 env.windowed_context.window.inner_size.width with
    | none =>
      unfold GlRenderer.new at h
      rw [hfb] at h
      dsimp only at h
      rw [hw] at h
      simp at h
    | some w =>
      cases hht : u32ToI32 env.windowed_context.window.inner_size.height with
      | none =>
        unfold GlRenderer.new at h
        rw [hfb] at h
        dsimp only at h
        rw [hw, hht] at h
        simp at h
      | some ht =>
        obtain ⟨rfl, hfb0⟩ := i32ToU32_eq_some hfb
        obtain ⟨rfl, hwle⟩ := u32ToI32_eq_some hw
        obtain ⟨rfl, hhle⟩ := u32ToI32_eq_some hht
        unfold GlRenderer.new at h
        rw [hfb] at h
        dsimp only at h
        rw [hw, hht] at h
        dsimp only at h
        simp only [Option.some.injEq] at h
        exact ⟨hfb0, hwle, hhle, h.symm⟩

/-- C1: for every construction environment whose GL fallback succeeds,
construction produces exactly one renderer variant, never both and never
neither: the Vulkan builder is attempted first; when it succeeds the Skulpin
variant is returned with no diagnostic, and when it returns any error the GL
variant is constructed instead with exactly one diagnostic carrying that
error, which is never surfaced in the returned value. -/
theorem construction_selects_exactly_one_variant (env : ConstructEnv)
    (g : GlRenderer) (hg : GlRenderer.new env.gl = some g) :
    WindowRenderer.new env =
      match env.vk.build_result with
      | .ok _ =>
        (some (WindowRenderer.Skulpin { winit_window := env.vk.winit_window }), [])
      | .error e => (some (WindowRenderer.Gl g), [Event.diagnostic e]) := by
  unfold WindowRenderer.new SkulpinRenderer.new
  cases h : env.vk.build_result with
  | ok u => rfl
  | error e =>
    rw [hg]

/-- C1 witness: with a failing Vulkan builder and the sample GL environment,
construction returns the GL variant and one diagnostic. -/
theorem construction_selects_exactly_one_variant_witness :
    WindowRenderer.new { vk := sampleVkFail, gl := sampleGlEnv } =
      (some (WindowRenderer.Gl sampleGl), [Event.diagnostic { code := 3 }]) :=
  construction_selects_exactly_one_variant
    { vk := sampleVkFail, gl := sampleGlEnv } sampleGl (by rfl)

/-- C2: after a successful GL resize to (w, h), the drawing surface and the
backend render target were replaced together: the surface reports render
target dimensions (w, h), it agrees with the stored backend render target,
and any subsequent paint operates on that surface, leaving its render target
unchanged. -/
theorem resize_sets_surface_dimensions (r r2 : GlRenderer) (size : PhysicalSize)
    (evs : List Event) (h : GlRenderer.resize r size = some (r2, evs)) :
    r2.surface.render_target.width = (size.width : Int) ∧
    r2.surface.render_target.height = (size.height : Int) ∧
    r2.surface.render_target = r2.backend_render_target ∧
    (∀ swap f, ((GlRenderer.paint r2 swap f).2.1).surface.render_target =
        r2.surface.render_target) := by
  obtain ⟨-, -, rfl, rfl⟩ := resize_success_shape h
  refine ⟨rfl, rfl, rfl, ?_⟩
  intro swap f
  cases swap <;> rfl

/-- C2 witness: resizing the sample GL renderer to 400 by 300 yields a
surface whose render target has width 400 and agrees with the stored backend
render target. -/
theorem resize_sets_surface_dimensions_witness :
    sampleGlResized.surface.render_target.width = (400 : Int) ∧
    sampleGlResized.surface.render_target = sampleGlResized.backend_render_target :=
  ⟨(resize_sets_surface_dimensions sampleGl sampleGlResized
      { width := 400, height := 300 } [Event.redraw_requested] (by rfl)).1,
   (resize_sets_surface_dimensions sampleGl sampleGlResized
      { width := 400, height := 300 } [Event.redraw_requested] (by rfl)).2.2.1⟩

/-- C3: paint invokes the caller supplied callback exactly once on either
variant, and does not invoke it at all when acquisition of the drawing
surface fails, which is only possible through the delegated Vulkan draw. -/
theorem paint_invokes_callback_exactly_once (r : WindowRenderer)
    (o : PaintOracle) (f : Canvas → Canvas) :
    callbackCount (WindowRenderer.paint r o f).2.2 =
      if acquisitionFails r o then 0 else 1 := by
  obtain ⟨vk, gswap⟩ := o
  cases r with
  | Skulpin s => cases vk <;> rfl
  | Gl g => cases gswap <;> rfl

/-- C4: paint returns a backend tagged error exactly when presentation
fails: a GL buffer swap error is returned in the GL tagged variant, a
delegated Vulkan draw error in the Vulkan (Skulpin) tagged variant, and
success is returned when presentation succeeds. -/
theorem paint_errors_are_backend_tagged (r : WindowRenderer) (o : PaintOracle)
    (f : Canvas → Canvas) :
    (WindowRenderer.paint r o f).1 =
      match r, o.vk, o.gl_swap with
      | .Skulpin _, .acquire_failed e, _ => Except.error (PaintError.Skulpin e)
      | .Skulpin _, .present_failed e, _ => Except.error (PaintError.Skulpin e)
      | .Skulpin _, .drawn, _ => Except.ok ()
      | .Gl _, _, some e => Except.error (PaintError.Gl e)
      | .Gl _, _, none => Except.ok () := by
  obtain ⟨vk, gswap⟩ := o
  cases r <;> cases vk <;> cases gswap <;> rfl

/-- C5: on the Vulkan variant, resize is a no-op: the state is returned
entirely unchanged, no events are emitted and no error can be raised. -/
theorem vulkan_resize_is_noop (s : SkulpinRenderer) (size : PhysicalSize) :
    WindowRenderer.resize (WindowRenderer.Skulpin s) size =
      some (WindowRenderer.Skulpin s, []) := rfl

/-- C6: on either variant, scale_factor returns exactly the host window
scale factor, and this persists across the lifetime: a successful resize
preserves the underlying window, as does every paint. -/
theorem scale_factor_tracks_host_window (r r2 : WindowRenderer)
    (size : PhysicalSize) (evs : List Event)
    (h : WindowRenderer.resize r size = some (r2, evs)) :
    WindowRenderer.scale_factor r = (WindowRenderer.window r).scale_factor ∧
    WindowRenderer.scale_factor r2 = (WindowRenderer.window r2).scale_factor ∧
    WindowRenderer.window r2 = WindowRenderer.window r ∧
    (∀ o f, WindowRenderer.window ((WindowRenderer.paint r o f).2.1) =
        WindowRenderer.window r) := by
  have hsf : ∀ x : WindowRenderer,
      WindowRenderer.scale_factor x = (WindowRenderer.window x).scale_factor := by
    intro x
    cases x <;> rfl
  have hwin : WindowRenderer.window r2 = WindowRenderer.window r := by
    cases r with
    | Skulpin s =>
      simp only [WindowRenderer.resize, Option.some.injEq, Prod.mk.injEq] at h
      obtain ⟨h1, -⟩ := h
      subst h1
      rfl
    | Gl g =>
      cases hres : GlRenderer.resize g size with
      | none => simp [WindowRenderer.resize, hres] at h
      | some p =>
        obtain ⟨g2, evs2⟩ := p
        simp only [WindowRenderer.resize, hres, Option.some.injEq,
          Prod.mk.injEq] at h
        obtain ⟨h1, -⟩ := h
        subst h1
        obtain ⟨-, -, rfl, -⟩ := resize_success_shape hres
        rfl
  have hpaint : ∀ (o : PaintOracle) (f : Canvas → Canvas),
      WindowRenderer.window ((WindowRenderer.paint r o f).2.1) =
        WindowRenderer.window r := by
    intro o f
    obtain ⟨vk, gswap⟩ := o
    cases r with
    | Skulpin s => cases vk <;> rfl
    | Gl g => cases gswap <;> rfl
  exact ⟨hsf r, hsf r2, hwin, hpaint⟩

/-- C6 witness: the sample GL variant reports the sample window scale factor
and a concrete resize preserves the underlying window. -/
theorem scale_factor_tracks_host_window_witness :
    WindowRenderer.scale_factor sampleWR =
      (WindowRenderer.window sampleWR).scale_factor ∧
    WindowRenderer.window (WindowRenderer.Gl sampleGlResized) =
      WindowRenderer.window sampleWR :=
  ⟨(scale_factor_tracks_host_window sampleWR (WindowRenderer.Gl sampleGlResized)
      { width := 400, height := 300 } [Event.redraw_requested] (by rfl)).1,
   (scale_factor_tracks_host_window sampleWR (WindowRenderer.Gl sampleGlResized)
      { width := 400, height := 300 } [Event.redraw_requested] (by rfl)).2.2.1⟩

/-- C7: GL construction applies the window scale factor as a canvas scale
transform on the newly built surface, whereas a subsequent resize rebuilds
the surface with a fresh, untransformed canvas and then requests a redraw. -/
theorem scale_transform_only_at_construction (env : GlEnv) (r r2 : GlRenderer)
    (size : PhysicalSize) (evs : List Event)
    (hnew : GlRenderer.new env = some r)
    (hres : GlRenderer.resize r size = some (r2, evs)) :
    r.surface.canvas = Canvas.fresh.scale
      (env.windowed_context.window.scale_factor,
       env.windowed_context.window.scale_factor) ∧
    r2.surface.canvas = Canvas.fresh ∧
    evs = [Event.redraw_requested] := by
  obtain ⟨-, -, -, rfl⟩ := new_success_shape hnew
  obtain ⟨-, -, rfl, rfl⟩ := resize_success_shape hres
  exact ⟨rfl, rfl, rfl⟩

/-- C7 witness: the sample construction applies the scale transform of 2 and
the concrete resize leaves the rebuilt canvas fresh. -/
theorem scale_transform_only_at_construction_witness :
    sampleGl.surface.canvas = Canvas.fresh.scale (2, 2) ∧
    sampleGlResized.surface.canvas = Canvas.fresh :=
  ⟨(scale_transform_only_at_construction sampleGlEnv sampleGl sampleGlResized
      { width := 400, height := 300 } [Event.redraw_requested]
      (by rfl) (by rfl)).1,
   (scale_transform_only_at_construction sampleGlEnv sampleGl sampleGlResized
      { width := 400, height := 300 } [Event.redraw_requested]
      (by rfl) (by rfl)).2.1⟩

/-- C8: a size or framebuffer id value that does not fit the GPU API integer
width makes the GL operation unrecoverable (a panic, modelled as none)
rather than an error return, and this is the only way these operations can
fail: construction panics exactly when the framebuffer id is negative or a
window dimension exceeds the signed 32 bit range, and resize panics exactly
when a requested dimension exceeds that range; when all values fit, the
conversion failure branch is unreachable. -/
theorem numeric_overflow_is_unrecoverable (env : GlEnv) (r : GlRenderer)
    (size : PhysicalSize) :
    (GlRenderer.new env = none ↔
      env.fboid < 0 ∨
      i32Max < env.windowed_context.window.inner_size.width ∨
      i32Max < env.windowed_context.window.inner_size.height) ∧
    (GlRenderer.resize r size = none ↔
      i32Max < size.width ∨ i32Max < size.height) := by
  constructor
  · constructor
    · intro h
      by_contra hc
      push_neg at hc
      obtain ⟨h1, h2, h3⟩ := hc
      unfold GlRenderer.new at h
      rw [i32ToU32_of_nonneg h1] at h
      dsimp only at h
      rw [u32ToI32_of_le h2, u32ToI32_of_le h3] at h
      simp at h
    · intro h
      rcases h with h | h | h
      · unfold GlRenderer.new
        rw [i32ToU32_of_neg h]
      · unfold GlRenderer.new
        cases hfb : i32ToU32 env.fboid with
        | none => rfl
        | some fb =>
          dsimp only
          rw [u32ToI32_of_gt h]
      · unfold GlRenderer.new
        cases hfb : i32ToU32 env.fboid with
        | none => rfl
        | some fb =>
          dsimp only
          rw [u32ToI32_of_gt h]
          cases u32ToI32 env.windowed_context.window.inner_size.width <;> rfl
  · constructor
    · intro h
      by_contra hc
      push_neg at hc
      obtain ⟨h1, h2⟩ := hc
      unfold GlRenderer.resize at h
      rw [u32ToI32_of_le h1, u32ToI32_of_le h2] at h
      simp at h
    · intro h
      rcases h with h | h
      · unfold GlRenderer.resize
        rw [u32ToI32_of_gt h]
      · unfold GlRenderer.resize
        rw [u32ToI32_of_gt h]
        cases u32ToI32 size.width <;> rfl

/-- C9: the variant chosen at construction is preserved by every operation:
paint, a successful resize and request_repaint never change which variant
the renderer is (scale_factor returns a number and touches no state). -/
theorem variant_fixed_for_lifetime (r : WindowRenderer) :
    (∀ o f, ((WindowRenderer.paint r o f).2.1).isGl = r.isGl) ∧
    (∀ size p, WindowRenderer.resize r size = some p → p.1.isGl = r.isGl) ∧
    ((WindowRenderer.request_repaint r).1.isGl = r.isGl) := by
  refine ⟨?_, ?_, ?_⟩
  · intro o f
    obtain ⟨vk, gswap⟩ := o
    cases r with
    | Skulpin s => cases vk <;> rfl
    | Gl g => cases gswap <;> rfl
  · intro size p hp
    cases r with
    | Skulpin s =>
      simp only [WindowRenderer.resize, Option.some.injEq] at hp
      rw [← hp]
    | Gl g =>
      cases hres : GlRenderer.resize g size with
      | none => simp [WindowRenderer.resize, hres] at hp
      | some q =>
        obtain ⟨g2, evs2⟩ := q
        simp only [WindowRenderer.resize, hres, Option.some.injEq] at hp
        rw [← hp]
        rfl
  · cases r <;> rfl

/-- C9 witness: a concrete paint and a concrete resize on the sample GL
variant preserve the variant tag. -/
theorem variant_fixed_for_lifetime_witness :
    ((WindowRenderer.paint sampleWR samplePaintOracle id).2.1).isGl =
      sampleWR.isGl ∧
    (WindowRenderer.Gl sampleGlResized,
      [Event.redraw_requested]).1.isGl = sampleWR.isGl :=
  ⟨(variant_fixed_for_lifetime sampleWR).1 samplePaintOracle id,
   (variant_fixed_for_lifetime sampleWR).2.1 { width := 400, height := 300 }
     (WindowRenderer.Gl sampleGlResized, [Event.redraw_requested]) (by rfl)⟩

/-- C10: a successful GL resize replaces only the backend render target and
the drawing surface: the framebuffer info captured at construction and the
GPU context are reused unchanged by the rebuilt render target and surface,
the window and its pixel format are untouched, and the re-queried pixel
format supplies the multisampling and stencil bits of the new render
target. -/
theorem resize_reuses_context_and_fb_info (r r2 : GlRenderer)
    (size : PhysicalSize) (evs : List Event)
    (h : GlRenderer.resize r size = some (r2, evs)) :
    r2.fb_info = r.fb_info ∧
    r2.gr_context = r.gr_context ∧
    r2.backend_render_target.fb_info = r.fb_info ∧
    r2.surface.gr_context = r.gr_context ∧
    r2.windowed_context.window = r.windowed_context.window ∧
    r2.windowed_context.pixel_format = r.windowed_context.pixel_format ∧
    r2.backend_render_target.sample_count =
      r.windowed_context.pixel_format.multisampling ∧
    r2.backend_render_target.stencil_bits =
      r.windowed_context.pixel_format.stencil_bits := by
  obtain ⟨-, -, rfl, -⟩ := resize_success_shape h
  exact ⟨rfl, rfl, rfl, rfl, rfl, rfl, rfl, rfl⟩

/-- C10 witness: the concrete resize of the sample GL renderer reuses the
framebuffer info and GPU context unchanged. -/
theorem resize_reuses_context_and_fb_info_witness :
    sampleGlResized.fb_info = sampleGl.fb_info ∧
    sampleGlResized.gr_context = sampleGl.gr_context :=
  ⟨(resize_reuses_context_and_fb_info sampleGl sampleGlResized
      { width := 400, height := 300 } [Event.redraw_requested] (by rfl)).1,
   (resize_reuses_context_and_fb_info sampleGl sampleGlResized
      { width := 400, height := 300 } [Event.redraw_requested] (by rfl)).2.1⟩

end SkiaVulkanGl
